import Mathlib

/-!
Shallow embedding of the state-synchronization engine of a Bluetooth tray
applet (source: src/bluetooth.rs), together with proofs of the spec claims
about it.

Rust strings are modelled as lists of characters (`List Char`): Rust's
`String` ordering compares UTF-8 bytes lexicographically, which for valid
UTF-8 coincides with code-point lexicographic order, so a character list
with code-point comparison is a faithful model.  Fallible driver calls
(`bluer`) are modelled as `Except`-valued oracle fields; the async side
effects of the watcher (hardware calls, process spawns, sleeps) are
modelled as explicit effect traces.
-/

namespace Bluetooth

/-! ## Character-list model of Rust strings -/

/-- Character list of a Lean string literal, used to write concrete inputs. -/
def str (s : String) : List Char := s.data

/-- Model of Rust `str::to_lowercase` (per-character lowercasing). -/
def to_lowercase (s : List Char) : List Char := s.map Char.toLower

/-- Drop leading whitespace, the left half of Rust `str::trim`. -/
def trim_left : List Char → List Char
  | [] => []
  | c :: rest => if c.isWhitespace then trim_left rest else c :: rest

/-- Model of Rust `str::trim`: drop whitespace from both ends. -/
def trim_chars (s : List Char) : List Char :=
  ((trim_left ((trim_left s).reverse)).reverse)

/-- Model of Rust `str::split("\n")`: split at every newline, keeping empty
pieces, as the iterator does. -/
def split_lines : List Char → List (List Char)
  | [] => [[]]
  | c :: rest =>
    if c = '\n' then [] :: split_lines rest
    else
      match split_lines rest with
      | [] => [[c]]
      | g :: gs => (c :: g) :: gs

/-- Model of Rust `str::split_once(" ")`: split at the first space, `none`
when the string contains no space. -/
def split_once_space : List Char → Option (List Char × List Char)
  | [] => none
  | c :: rest =>
    if c = ' ' then some ([], rest)
    else (split_once_space rest).map (fun p => (c :: p.1, p.2))

/-- Lexicographic comparison of character lists by code point: the model of
Rust `Ord for String` (byte-lexicographic, equal to code-point order on
valid UTF-8). -/
def chars_cmp : List Char → List Char → Ordering
  | [], [] => .eq
  | [], _ :: _ => .lt
  | _ :: _, [] => .gt
  | a :: as, b :: bs =>
    match compare a.toNat b.toNat with
    | .eq => chars_cmp as bs
    | o => o

/-! ## Data model (`BTDeviceStatus`, `BTDevice`, `BTState`) -/

/-- Device connection status, constructors in the Rust declaration order
(the derived `Ord` compares by this order). -/
inductive BTDeviceStatus where
  | Paired
  | Pairing
  | Connected
  | Connecting
  | Disconnected
  | Disconnecting
deriving DecidableEq, Repr

/-- Discriminant of a status constructor: the sort key the Rust
`derive(Ord)` on `BTDeviceStatus` compares. -/
def BTDeviceStatus.idx : BTDeviceStatus → Nat
  | .Paired => 0
  | .Pairing => 1
  | .Connected => 2
  | .Connecting => 3
  | .Disconnected => 4
  | .Disconnecting => 5

/-- Model of the derived `Ord for BTDeviceStatus` (declaration order). -/
def status_cmp (a b : BTDeviceStatus) : Ordering := compare a.idx b.idx

/-- One device record, as built by the watcher.  `address` is the rendered
hardware address (`bluer::Address` is an opaque stable identifier; we model
it by its string form). -/
structure BTDevice where
  name : List Char
  address : List Char
  status : BTDeviceStatus
  is_paired : Bool
  is_trusted : Bool
  battery_percentage : Option Nat
deriving DecidableEq, Repr

/-- Model of `BTDevice::is_on`: the device counts as "on" exactly when its
status is `Connected`. -/
def BTDevice.is_on (d : BTDevice) : Bool := d.status = BTDeviceStatus.Connected

/-- Model of `impl Ord for BTDevice`: status first (derived order), then
case-insensitive name. -/
def BTDevice.cmp (a b : BTDevice) : Ordering :=
  match status_cmp a.status b.status with
  | .eq => chars_cmp (to_lowercase a.name) (to_lowercase b.name)
  | o => o

/-- The `le` relation induced by `BTDevice::cmp`, as used by the stable
`Vec::sort`. -/
def bt_le (a b : BTDevice) : Bool := a.cmp b ≠ Ordering.gt

/-- Model of `impl PartialEq for BTDevice`: identity is (name, address). -/
def bt_eq (a b : BTDevice) : Bool := a.name = b.name ∧ a.address = b.address

/-- Model of `devices.sort()` in `build_state`: Rust `Vec::sort` is a stable
merge sort driven by `Ord::cmp`. -/
def sort_devices (l : List BTDevice) : List BTDevice := l.mergeSort bt_le

/-- The authoritative snapshot (`BTState`). -/
structure BTState where
  «on» : Bool
  devices : List BTDevice
deriving DecidableEq, Repr

/-! ## Device oracle and `BTDevice::from_device`

Each `bluer::Device` accessor is an independently fallible async call; a
`DeviceOracle` records the outcome of each query for one device, so
`from_device` becomes a pure function of the oracle. -/

/-- Outcomes of the per-device driver queries issued by `from_device`.
`address` is the rendered `device.address()` (infallible in the source). -/
structure DeviceOracle (ε : Type) where
  address : List Char
  name : Except ε (Option (List Char))
  is_paired : Except ε Bool
  is_trusted : Except ε Bool
  is_connected : Except ε Bool
  battery_percentage : Except ε (Option Nat)

/-- Model of `BTDevice::from_device`: each sub-query failure is replaced by
a default (`name` falls back to the address string, also when empty; the
flags default to `false` via `unwrap_or_default`; battery to `none`), and
the status is derived as Connected / Paired / Disconnected. -/
def from_device {ε : Type} (d : DeviceOracle ε) : BTDevice :=
  let name0 : List Char :=
    match d.name with
    | .ok (some n) => n
    | .ok none => d.address
    | .error _ => d.address
  let name := if name0.isEmpty then d.address else name0
  let is_paired := match d.is_paired with | .ok b => b | .error _ => false
  let is_trusted := match d.is_trusted with | .ok b => b | .error _ => false
  let is_connected := match d.is_connected with | .ok b => b | .error _ => false
  let battery_percentage :=
    match d.battery_percentage with | .ok b => b | .error _ => none
  let status :=
    if is_connected then BTDeviceStatus.Connected
    else if is_paired then BTDeviceStatus.Paired
    else BTDeviceStatus.Disconnected
  { name := name, address := d.address, status := status,
    is_paired := is_paired, is_trusted := is_trusted,
    battery_percentage := battery_percentage }

/-! ## Adapter oracle and `build_state` -/

/-- Outcomes of the adapter-level driver queries issued by `build_state`:
the power query, the address enumeration, and per-address device-handle
resolution (a resolved handle carries the oracle for its field queries). -/
structure AdapterOracle (ε : Type) where
  is_powered : Except ε Bool
  device_addresses : Except ε (List (List Char))
  device : List Char → Except ε (DeviceOracle ε)

/-- Model of `build_state`: fail only when `is_powered` fails; a failed
address enumeration becomes the empty list (`unwrap_or_default`); addresses
whose handle resolution fails are dropped (`filter_map .. .ok()`); the
collected records are sorted.  (The source collects via `FuturesUnordered`
in completion order; the subsequent sort makes the enumeration order the
canonical choice here.) -/
def build_state {ε : Type} (a : AdapterOracle ε) : Except ε BTState :=
  match a.is_powered with
  | .error e => .error e
  | .ok powered =>
    let addresses := match a.device_addresses with | .ok l => l | .error _ => []
    let devices :=
      (addresses.filterMap (fun address => (a.device address).toOption)).map
        (fun d => from_device d)
    .ok { «on» := powered, devices := sort_devices devices }

/-! ## Session bootstrap with exponential backoff -/

/-- Sleep computed in `init_bluetooth` after bumping `retry_count` to `n`:
`2_u64.saturating_pow(n).min(65_536)` milliseconds. -/
def backoff_delay_ms (n : Nat) : Nat := min (min (2 ^ n) (2 ^ 64 - 1)) 65536

/-- Trace of one run of the bootstrap loop: the 1-indexed attempt numbers
at which `Session::new` was called, the sleeps performed between attempts,
and whether the loop ended in a session (`true`) or the fatal bail. -/
structure BootstrapTrace where
  attempts : List Nat
  delays : List Nat
  ok : Bool
deriving DecidableEq, Repr

/-- One step of the bootstrap loop of `init_bluetooth`, indexed by the
current 1-indexed attempt number and by `left = 16 - retry_count`, the
number of retries still permitted before the `retry_count >= 16` bail
(`succeeds n` is the outcome of the `n`-th `Session::new` call). -/
def bootstrap_go (succeeds : Nat → Bool) : Nat → Nat → BootstrapTrace
  | attempt, 0 => ⟨[attempt], [], succeeds attempt⟩
  | attempt, left + 1 =>
    if succeeds attempt then ⟨[attempt], [], true⟩
    else
      let t := bootstrap_go succeeds (attempt + 1) left
      ⟨attempt :: t.attempts, backoff_delay_ms attempt :: t.delays, t.ok⟩

/-- The bootstrap loop of `init_bluetooth`: first attempt is number 1,
`retry_count` starts at 0, so 16 retries are permitted after a failure. -/
def session_bootstrap (succeeds : Nat → Bool) : BootstrapTrace :=
  bootstrap_go succeeds 1 16

/-! ## Effect traces of the watcher's mutation path -/

/-- Constant `STATE_CHANGED_FAILED_RETRY_MS` from the source. -/
def STATE_CHANGED_FAILED_RETRY_MS : Nat := 5000

/-- Observable side effects of the intent-handling task: hardware calls,
`rfkill` process invocations, sleeps, snapshot rebuild-and-publish steps,
and detached task spawns (`tokio::spawn`) carrying their own trace. -/
inductive Effect where
  | set_powered (b : Bool)
  | rfkill_toggle (verb : String) (id : List Char)
  | connect_device
  | disconnect_device
  | sleep_ms (n : Nat)
  | rebuild_publish
  | spawn_task (body : List Effect)

/-- Environment of one `toggle_bluetooth` call: the stdout of
`rfkill list -n --output ID,DEVICE`, or `none` when the command itself
failed or produced non-UTF-8 output. -/
structure RfkillEnv where
  listOutput : Option (List Char)

/-- Parsing step of `toggle_bluetooth`: split the rfkill output into lines,
trim each row, split it at the first space into `(id, device-name)`, and
return the id of the first row whose device-name equals `name` exactly. -/
def find_device_id (name : List Char) (env : RfkillEnv) : Option (List Char) :=
  env.listOutput.bind fun lines =>
    (split_lines lines).findSome? fun row =>
      (split_once_space (trim_chars row)).bind fun p =>
        if name = p.2 then some p.1 else none

/-- Effect trace of `toggle_bluetooth(adapter, on)`: power the adapter to
`!on` (failure logged), look up the adapter name in the rfkill list and
block/unblock the matching id when one is found (failures logged), then
sleep 100 ms.  Nothing in this path propagates an error: the function is
total in the environment. -/
def toggle_bluetooth (name : List Char) (env : RfkillEnv) («on» : Bool) :
    List Effect :=
  [Effect.set_powered (!«on»)] ++
  (match find_device_id name env with
   | some id => [Effect.rfkill_toggle (if «on» then "block" else "unblock") id]
   | none => []) ++
  [Effect.sleep_ms 100]

/-- Effect trace of `toggle_device(adapter, address, on)`: if resolving the
handle by address fails the error is logged and nothing further happens;
otherwise disconnect when `on`, connect when not.  Connect/disconnect
errors are logged, not propagated (the trace records the call issued). -/
def toggle_device {ε : Type} (resolve : Except ε Unit) («on» : Bool) :
    List Effect :=
  match resolve with
  | .error _ => []
  | .ok _ => [if «on» then Effect.disconnect_device else Effect.connect_device]

/-- The user-intent type (`Action`). -/
inductive Action where
  | ToggleBluetooth
  | ToggleDevice (d : BTDevice)

/-- Effect trace of one `BTEvent::Request` handled by the intent loop of
`init_bluetooth`: dispatch on the action — a power toggle runs
`toggle_bluetooth` on the observed powered flag and then spawns the single
detached delayed-rebuild task; a device toggle resolves the carried
record's address and uses its `is_on` predicate — and in either case a
synchronous rebuild-and-publish follows. -/
def handle_request {ε : Type} (name : List Char) (env : RfkillEnv)
    (resolve : List Char → Except ε Unit) (action : Action) (state : BTState) :
    List Effect :=
  (match action with
   | .ToggleBluetooth =>
     toggle_bluetooth name env state.on ++
       [Effect.spawn_task
         [Effect.sleep_ms STATE_CHANGED_FAILED_RETRY_MS,
          Effect.rebuild_publish]]
   | .ToggleDevice d => toggle_device (resolve d.address) d.is_on) ++
  [Effect.rebuild_publish]

/-! ## Order-theoretic facts about the device comparator -/

theorem chars_cmp_nil_left (t : List Char) : chars_cmp [] t ≠ Ordering.gt := by
  cases t <;> simp [chars_cmp]

theorem chars_cmp_swap (s t : List Char) : chars_cmp t s = (chars_cmp s t).swap := by
  induction s generalizing t with
  | nil => cases t <;> simp [chars_cmp, Ordering.swap]
  | cons a as ih =>
    cases t with
    | nil => simp [chars_cmp, Ordering.swap]
    | cons b bs =>
      rcases Nat.lt_trichotomy a.toNat b.toNat with h | h | h
      · have h1 : compare a.toNat b.toNat = Ordering.lt := Nat.compare_eq_lt.mpr h
        have h2 : compare b.toNat a.toNat = Ordering.gt := Nat.compare_eq_gt.mpr h
        simp [chars_cmp, h1, h2, Ordering.swap]
      · have h1 : compare a.toNat b.toNat = Ordering.eq := Nat.compare_eq_eq.mpr h
        have h2 : compare b.toNat a.toNat = Ordering.eq := Nat.compare_eq_eq.mpr h.symm
        simpa [chars_cmp, h1, h2] using ih bs
      · have h1 : compare a.toNat b.toNat = Ordering.gt := Nat.compare_eq_gt.mpr h
        have h2 : compare b.toNat a.toNat = Ordering.lt := Nat.compare_eq_lt.mpr h
        simp [chars_cmp, h1, h2, Ordering.swap]

theorem chars_le_trans (s t u : List Char) (h1 : chars_cmp s t ≠ Ordering.gt)
    (h2 : chars_cmp t u ≠ Ordering.gt) : chars_cmp s u ≠ Ordering.gt := by
  induction s generalizing t u with
  | nil => exact chars_cmp_nil_left u
  | cons a as ih =>
    cases t with
    | nil =>
      exact absurd (by simp [chars_cmp]) h1
    | cons b bs =>
      cases u with
      | nil => exact absurd (by simp [chars_cmp]) h2
      | cons c cs =>
        rcases Nat.lt_trichotomy a.toNat b.toNat with hab | hab | hab
        · rcases Nat.lt_trichotomy b.toNat c.toNat with hbc | hbc | hbc
          · simp [chars_cmp, Nat.compare_eq_lt.mpr (hab.trans hbc)]
          · simp [chars_cmp, Nat.compare_eq_lt.mpr (hbc ▸ hab)]
          · exact absurd (by simp [chars_cmp, Nat.compare_eq_gt.mpr hbc]) h2
        · rcases Nat.lt_trichotomy b.toNat c.toNat with hbc | hbc | hbc
          · simp [chars_cmp, Nat.compare_eq_lt.mpr (hab ▸ hbc)]
          · have e1 : compare a.toNat b.toNat = Ordering.eq := Nat.compare_eq_eq.mpr hab
            have e2 : compare b.toNat c.toNat = Ordering.eq := Nat.compare_eq_eq.mpr hbc
            have e3 : compare a.toNat c.toNat = Ordering.eq :=
              Nat.compare_eq_eq.mpr (hab.trans hbc)
            simp only [chars_cmp, e1] at h1
            simp only [chars_cmp, e2] at h2
            simpa only [chars_cmp, e3] using ih bs cs h1 h2
          · exact absurd (by simp [chars_cmp, Nat.compare_eq_gt.mpr hbc]) h2
        · exact absurd (by simp [chars_cmp, Nat.compare_eq_gt.mpr hab]) h1

theorem bt_le_iff (a b : BTDevice) : bt_le a b = true ↔
    (a.status.idx < b.status.idx ∨
      (a.status.idx = b.status.idx ∧
        chars_cmp (to_lowercase a.name) (to_lowercase b.name) ≠ Ordering.gt)) := by
  unfold bt_le BTDevice.cmp status_cmp
  rcases Nat.lt_trichotomy a.status.idx b.status.idx with h | h | h
  · simp only [Nat.compare_eq_lt.mpr h]
    simp [h]
  · simp only [Nat.compare_eq_eq.mpr h]
    simp [h, Nat.lt_irrefl]
  · simp only [Nat.compare_eq_gt.mpr h]
    simp only [decide_eq_true_eq]
    constructor
    · intro hc
      exact absurd rfl hc
    · intro hc
      rcases hc with hc | ⟨hc, _⟩
      · omega
      · omega

theorem bt_le_trans (a b c : BTDevice) (h1 : bt_le a b = true) (h2 : bt_le b c = true) :
    bt_le a c = true := by
  rw [bt_le_iff] at h1 h2 ⊢
  rcases h1 with h1 | ⟨h1, h1c⟩
  · rcases h2 with h2 | ⟨h2, _⟩
    · exact Or.inl (h1.trans h2)
    · exact Or.inl (h2 ▸ h1)
  · rcases h2 with h2 | ⟨h2, h2c⟩
    · exact Or.inl (h1 ▸ h2)
    · exact Or.inr ⟨h1.trans h2, chars_le_trans _ _ _ h1c h2c⟩

theorem bt_le_total (a b : BTDevice) : (bt_le a b || bt_le b a) = true := by
  rw [Bool.or_eq_true, bt_le_iff, bt_le_iff]
  rcases Nat.lt_trichotomy a.status.idx b.status.idx with h | h | h
  · exact Or.inl (Or.inl h)
  · by_cases hc : chars_cmp (to_lowercase a.name) (to_lowercase b.name) = Ordering.gt
    · refine Or.inr (Or.inr ⟨h.symm, ?_⟩)
      rw [chars_cmp_swap, hc]
      simp [Ordering.swap]
    · exact Or.inl (Or.inr ⟨h, hc⟩)
  · exact Or.inr (Or.inl h)

/-- C4: the sort used in snapshot construction orders devices primarily by
the fixed status priority Paired < Pairing < Connected < Connecting <
Disconnected < Disconnecting, secondarily by case-insensitive name, and is
idempotent: sorting an already-sorted sequence leaves it unchanged. -/
theorem C4_sort_by_status_then_name_idempotent (l : List BTDevice) :
    (BTDeviceStatus.Paired.idx < BTDeviceStatus.Pairing.idx ∧
      BTDeviceStatus.Pairing.idx < BTDeviceStatus.Connected.idx ∧
      BTDeviceStatus.Connected.idx < BTDeviceStatus.Connecting.idx ∧
      BTDeviceStatus.Connecting.idx < BTDeviceStatus.Disconnected.idx ∧
      BTDeviceStatus.Disconnected.idx < BTDeviceStatus.Disconnecting.idx) ∧
    (sort_devices l).Pairwise (fun a b =>
      a.status.idx < b.status.idx ∨
        (a.status.idx = b.status.idx ∧
          chars_cmp (to_lowercase a.name) (to_lowercase b.name) ≠ Ordering.gt)) ∧
    sort_devices (sort_devices l) = sort_devices l := by
  refine ⟨by decide, ?_, ?_⟩
  · exact (List.sorted_mergeSort bt_le_trans bt_le_total l).imp
      (fun h => (bt_le_iff _ _).mp h)
  · exact List.mergeSort_of_sorted (List.sorted_mergeSort bt_le_trans bt_le_total l)

/-- C5: two device records are equal exactly when both the name and the
address agree; status, flags and battery are not part of identity. -/
theorem C5_equality_is_name_and_address (a b : BTDevice) :
    (bt_eq a b = true ↔ a.name = b.name ∧ a.address = b.address) ∧
    (∀ (n ad : List Char) (s1 s2 : BTDeviceStatus) (p1 p2 t1 t2 : Bool)
       (bp1 bp2 : Option Nat),
      bt_eq ⟨n, ad, s1, p1, t1, bp1⟩ ⟨n, ad, s2, p2, t2, bp2⟩ = true) := by
  constructor
  · simp [bt_eq]
  · intro n ad s1 s2 p1 p2 t1 t2 bp1 bp2
    simp [bt_eq]

/-- C9: the device ordering is not consistent with device equality — a pair
equal under `PartialEq` (same name and address) compares non-equal under
`Ord` because the statuses differ, and a pair that compares equal under
`Ord` (same status, case-insensitively equal names) is unequal under
`PartialEq` because the addresses differ. -/
theorem C9_ordering_inconsistent_with_equality :
    (bt_eq ⟨str "Buds", str "AA:AA", BTDeviceStatus.Paired, true, false, none⟩
        ⟨str "Buds", str "AA:AA", BTDeviceStatus.Connected, true, false, some 40⟩
        = true ∧
      BTDevice.cmp ⟨str "Buds", str "AA:AA", BTDeviceStatus.Paired, true, false, none⟩
        ⟨str "Buds", str "AA:AA", BTDeviceStatus.Connected, true, false, some 40⟩
        ≠ Ordering.eq) ∧
    (BTDevice.cmp ⟨str "buds", str "AA:AA", BTDeviceStatus.Paired, true, false, none⟩
        ⟨str "BUDS", str "BB:BB", BTDeviceStatus.Paired, true, false, none⟩
        = Ordering.eq ∧
      bt_eq ⟨str "buds", str "AA:AA", BTDeviceStatus.Paired, true, false, none⟩
        ⟨str "BUDS", str "BB:BB", BTDeviceStatus.Paired, true, false, none⟩
        = false) := by
  decide

/-! ## Facts about the bootstrap loop -/

theorem bootstrap_go_attempts_bounds (succeeds : Nat → Bool) :
    ∀ (left attempt : Nat), ∀ n ∈ (bootstrap_go succeeds attempt left).attempts,
      attempt ≤ n ∧ n ≤ attempt + left := by
  intro left
  induction left with
  | zero =>
    intro attempt n hn
    simp only [bootstrap_go, List.mem_singleton] at hn
    omega
  | succ left ih =>
    intro attempt n hn
    simp only [bootstrap_go] at hn
    by_cases hs : succeeds attempt = true
    · simp [hs] at hn
      omega
    · simp [hs] at hn
      rcases hn with hn | hn
      · omega
      · have := ih (attempt + 1) n hn
        omega

theorem bootstrap_go_all_fail (succeeds : Nat → Bool)
    (h : ∀ n, succeeds n = false) :
    ∀ (left attempt : Nat),
      bootstrap_go succeeds attempt left =
        ⟨List.range' attempt (left + 1),
         (List.range' attempt left).map backoff_delay_ms, false⟩ := by
  intro left
  induction left with
  | zero =>
    intro attempt
    simp [bootstrap_go, h, List.range']
  | succ left ih =>
    intro attempt
    simp only [bootstrap_go, h, Bool.false_eq_true, if_false, ih (attempt + 1)]
    simp [List.range'_succ]

/-- C1 amended: the sleep after failed attempt n (1-indexed) is
min(2^n, 65536) ms for n = 1..16, but after attempt 16 fails the loop
sleeps the capped delay and makes one final attempt 17; the fatal abort
happens only once attempt 17 has also failed, and attempt 18 is never
reached. -/
theorem C1_backoff_delays_and_final_attempt (succeeds : Nat → Bool) :
    (∀ n, 1 ≤ n → n ≤ 16 → backoff_delay_ms n = min (2 ^ n) 65536) ∧
    (∀ n ∈ (session_bootstrap succeeds).attempts, 1 ≤ n ∧ n ≤ 17) ∧
    ((∀ n, succeeds n = false) →
      session_bootstrap succeeds =
        ⟨List.range' 1 17, (List.range' 1 16).map backoff_delay_ms, false⟩) := by
  refine ⟨?_, ?_, ?_⟩
  · intro n h1 h16
    have hpow : (2 : Nat) ^ n ≤ 2 ^ 64 - 1 := by
      have : (2 : Nat) ^ n ≤ 2 ^ 16 := Nat.pow_le_pow_right (by omega) h16
      omega
    unfold backoff_delay_ms
    rw [Nat.min_eq_left hpow]
  · intro n hn
    have := bootstrap_go_attempts_bounds succeeds 16 1 n hn
    omega
  · intro h
    exact bootstrap_go_all_fail succeeds h 16 1

/-- C1 witness: concrete run in which every attempt fails — the delay for
attempt 7 is 128 ms, attempt 17 is within the attempt bound, and the run
ends in the fatal abort after the 16 capped delays. -/
theorem C1_backoff_delays_and_final_attempt_witness :
    backoff_delay_ms 7 = min (2 ^ 7) 65536 ∧
    (1 ≤ 17 ∧ 17 ≤ 17) ∧
    session_bootstrap (fun _ => false) =
      ⟨List.range' 1 17, (List.range' 1 16).map backoff_delay_ms, false⟩ := by
  have h := C1_backoff_delays_and_final_attempt (fun _ => false)
  refine ⟨h.1 7 (by decide) (by decide), ?_, h.2.2 (fun _ => rfl)⟩
  refine h.2.1 17 ?_
  rw [h.2.2 (fun _ => rfl)]
  decide

/-- C1 counterexample: with every `Session::new` call failing, the 17th
attempt is reached (refuting "attempt 17 is never reached: the bootstrap
aborts after attempt 16 fails"), and only then does the loop end in the
fatal abort. -/
theorem C1_attempt_17_is_reached :
    (17 : Nat) ∈ (session_bootstrap (fun _ => false)).attempts ∧
    (session_bootstrap (fun _ => false)).attempts.length = 17 ∧
    (session_bootstrap (fun _ => false)).ok = false := by
  decide

/-! ## Snapshot construction claims -/

theorem length_filterMap_toOption {ε β : Type} (f : List Char → Except ε β) :
    ∀ l : List (List Char),
      (l.filterMap (fun x => (f x).toOption)).length =
        l.countP (fun x => (f x).isOk) := by
  intro l
  induction l with
  | nil => simp
  | cons x xs ih =>
    cases hf : f x with
    | error e =>
      simp only [List.filterMap_cons, List.countP_cons, hf]
      simpa [Except.toOption, Except.isOk, Except.toBool] using ih
    | ok b =>
      simp only [List.filterMap_cons, List.countP_cons, hf]
      simpa [Except.toOption, Except.isOk, Except.toBool] using ih

/-- C2: `build_state` fails exactly when the top-level power query fails;
a failed device-address enumeration is absorbed as the empty set, so with a
successful power query and a failed enumeration the snapshot succeeds and
carries an empty device list. -/
theorem C2_build_state_fails_iff_power_query_fails {ε : Type}
    (a : AdapterOracle ε) :
    ((build_state a).isOk = a.is_powered.isOk) ∧
    (∀ (powered : Bool) (e : ε), a.is_powered = .ok powered →
      a.device_addresses = .error e →
      build_state a = .ok ⟨powered, []⟩) := by
  constructor
  · cases hp : a.is_powered with
    | error e => simp [build_state, hp, Except.isOk, Except.toBool]
    | ok powered => simp [build_state, hp, Except.isOk, Except.toBool]
  · intro powered e hp he
    simp [build_state, hp, he, sort_devices]

/-- C2 witness: a concrete adapter whose power query succeeds but whose
enumeration fails yields the successful empty snapshot, while an adapter
whose power query fails yields a failed snapshot. -/
theorem C2_build_state_fails_iff_power_query_fails_witness :
    build_state (⟨.ok true, .error (), fun _ => .error ()⟩ : AdapterOracle Unit)
      = .ok ⟨true, []⟩ ∧
    (build_state (⟨.error (), .ok [], fun _ => .error ()⟩ : AdapterOracle Unit)).isOk
      = false := by
  constructor
  · exact (C2_build_state_fails_iff_power_query_fails
      (⟨.ok true, .error (), fun _ => .error ()⟩ : AdapterOracle Unit)).2
      true () rfl rfl
  · rw [(C2_build_state_fails_iff_power_query_fails
      (⟨.error (), .ok [], fun _ => .error ()⟩ : AdapterOracle Unit)).1]
    rfl

/-- C3: `from_device` derives the status as Connected when the connected
query yields true, else Paired when the paired query yields true, else
Disconnected; each per-field sub-query failure is independently replaced by
its default (name falls back to the address string, flags to false, battery
to none), so a device all of whose sub-queries fail still becomes a record
with every field at its default. -/
theorem C3_from_device_status_and_defaults {ε : Type} (d : DeviceOracle ε) :
    (d.is_connected = .ok true → (from_device d).status = BTDeviceStatus.Connected) ∧
    (d.is_connected ≠ .ok true → d.is_paired = .ok true →
      (from_device d).status = BTDeviceStatus.Paired) ∧
    (d.is_connected ≠ .ok true → d.is_paired ≠ .ok true →
      (from_device d).status = BTDeviceStatus.Disconnected) ∧
    (∀ e, d.name = .error e → (from_device d).name = d.address) ∧
    (∀ e, d.is_paired = .error e → (from_device d).is_paired = false) ∧
    (∀ e, d.is_trusted = .error e → (from_device d).is_trusted = false) ∧
    (∀ e, d.battery_percentage = .error e →
      (from_device d).battery_percentage = none) ∧
    (∀ e1 e2 e3 e4 e5, d.name = .error e1 → d.is_paired = .error e2 →
      d.is_trusted = .error e3 → d.is_connected = .error e4 →
      d.battery_percentage = .error e5 →
      from_device d =
        ⟨d.address, d.address, BTDeviceStatus.Disconnected, false, false, none⟩) := by
  refine ⟨?_, ?_, ?_, ?_, ?_, ?_, ?_, ?_⟩
  · intro hc
    simp [from_device, hc]
  · intro hc hp
    cases hcv : d.is_connected with
    | error e => simp [from_device, hcv, hp]
    | ok b =>
      cases b with
      | false => simp [from_device, hcv, hp]
      | true => exact absurd hcv hc
  · intro hc hp
    have hcf : (match d.is_connected with | .ok b => b | .error _ => false) = false := by
      cases hcv : d.is_connected with
      | error e => rfl
      | ok b =>
        cases b with
        | false => rfl
        | true => exact absurd hcv hc
    have hpf : (match d.is_paired with | .ok b => b | .error _ => false) = false := by
      cases hpv : d.is_paired with
      | error e => rfl
      | ok b =>
        cases b with
        | false => rfl
        | true => exact absurd hpv hp
    simp [from_device, hcf, hpf]
  · intro e hn
    cases hne : (d.address).isEmpty <;> simp [from_device, hn, hne]
  · intro e hp
    simp [from_device, hp]
  · intro e ht
    simp [from_device, ht]
  · intro e hb
    simp [from_device, hb]
  · intro e1 e2 e3 e4 e5 h1 h2 h3 h4 h5
    cases hne : (d.address).isEmpty <;>
      simp [from_device, h1, h2, h3, h4, h5, hne]

/-- C3 witness: a concrete device whose five sub-queries all fail becomes a
record with the address string as name, flags false, battery none and
status Disconnected; a connected device gets status Connected. -/
theorem C3_from_device_status_and_defaults_witness :
    from_device (⟨str "AA:BB:CC:DD:EE:FF", .error (), .error (), .error (),
        .error (), .error ()⟩ : DeviceOracle Unit) =
      ⟨str "AA:BB:CC:DD:EE:FF", str "AA:BB:CC:DD:EE:FF",
        BTDeviceStatus.Disconnected, false, false, none⟩ ∧
    (from_device (⟨str "AA:BB:CC:DD:EE:FF", .ok (some (str "Buds")), .ok true,
        .ok false, .ok true, .ok (some 42)⟩ : DeviceOracle Unit)).status =
      BTDeviceStatus.Connected := by
  constructor
  · exact (C3_from_device_status_and_defaults _).2.2.2.2.2.2.2
      () () () () () rfl rfl rfl rfl rfl
  · exact (C3_from_device_status_and_defaults _).1 rfl

/-- C10: an enumerated address whose handle resolution fails is silently
dropped — the snapshot still succeeds and its device count equals the
number of addresses whose resolution succeeded. -/
theorem C10_failed_resolution_silently_omitted {ε : Type} (a : AdapterOracle ε)
    (powered : Bool) (addrs : List (List Char))
    (hp : a.is_powered = .ok powered) (ha : a.device_addresses = .ok addrs) :
    ∃ st : BTState, build_state a = .ok st ∧
      st.devices.length = addrs.countP (fun address => (a.device address).isOk) := by
  refine ⟨⟨powered, sort_devices ((addrs.filterMap
    (fun address => (a.device address).toOption)).map (fun d => from_device d))⟩,
    ?_, ?_⟩
  · simp [build_state, hp, ha]
  · simp only [sort_devices, List.length_mergeSort, List.length_map]
    exact length_filterMap_toOption (fun address => a.device address) addrs

/-- C10 witness: three enumerated addresses of which the middle one fails
to resolve produce a successful snapshot with exactly two devices. -/
theorem C10_failed_resolution_silently_omitted_witness :
    ∃ st : BTState,
      build_state (⟨.ok true, .ok [str "A1", str "B2", str "C3"],
        fun ad => if ad = str "B2" then .error () else
          .ok ⟨ad, .ok none, .ok false, .ok false, .ok false, .ok none⟩⟩ :
        AdapterOracle Unit) = .ok st ∧
      st.devices.length = 2 := by
  have h := C10_failed_resolution_silently_omitted
    (⟨.ok true, .ok [str "A1", str "B2", str "C3"],
      fun ad => if ad = str "B2" then .error () else
        .ok ⟨ad, .ok none, .ok false, .ok false, .ok false, .ok none⟩⟩ :
      AdapterOracle Unit) true [str "A1", str "B2", str "C3"] rfl rfl
  rcases h with ⟨st, hbuild, hlen⟩
  refine ⟨st, hbuild, ?_⟩
  rw [hlen]
  decide

/-! ## Mutation-path claims -/

/-- Recognizer for detached-task effects. -/
def Effect.is_spawn : Effect → Bool
  | .spawn_task _ => true
  | _ => false

/-- Recognizer for synchronous rebuild-and-publish effects. -/
def Effect.is_rebuild : Effect → Bool
  | .rebuild_publish => true
  | _ => false

/-- C6: a power toggle issues the hardware power-set call for the negated
observed flag, invokes rfkill with `block` when turning off and `unblock`
when turning on for the id of a list row whose device-name equals the
adapter name exactly, emits no rfkill command when no row matches (the
failure path propagates nothing), and ends with the fixed 100 ms settle
sleep. -/
theorem C6_power_toggle_rfkill_and_settle («on» : Bool) (name : List Char)
    (env : RfkillEnv) :
    Effect.set_powered (!«on») ∈ toggle_bluetooth name env «on» ∧
    (∀ id, find_device_id name env = some id →
      Effect.rfkill_toggle (if «on» then "block" else "unblock") id ∈
        toggle_bluetooth name env «on») ∧
    (∀ id, find_device_id name env = some id →
      ∃ lines, env.listOutput = some lines ∧
        ∃ row ∈ split_lines lines,
          split_once_space (trim_chars row) = some (id, name)) ∧
    (find_device_id name env = none →
      toggle_bluetooth name env «on» =
        [Effect.set_powered (!«on»), Effect.sleep_ms 100]) ∧
    (toggle_bluetooth name env «on»).getLast? = some (Effect.sleep_ms 100) := by
  refine ⟨?_, ?_, ?_, ?_, ?_⟩
  · simp [toggle_bluetooth]
  · intro id h
    simp [toggle_bluetooth, h]
  · intro id h
    unfold find_device_id at h
    cases hout : env.listOutput with
    | none => rw [hout] at h; exact absurd h (by simp)
    | some lines =>
      rw [hout] at h
      simp only [Option.some_bind] at h
      obtain ⟨row, hmem, hrow⟩ := List.exists_of_findSome?_eq_some h
      refine ⟨lines, rfl, row, hmem, ?_⟩
      cases hsp : split_once_space (trim_chars row) with
      | none => rw [hsp] at hrow; exact absurd hrow (by simp)
      | some p =>
        rw [hsp] at hrow
        simp only [Option.some_bind] at hrow
        by_cases hn : name = p.2
        · rw [if_pos hn] at hrow
          obtain rfl : p.1 = id := Option.some.inj hrow
          simp [hn]
        · rw [if_neg hn] at hrow
          exact absurd hrow (by simp)
  · intro h
    simp [toggle_bluetooth, h]
  · cases hf : find_device_id name env with
    | none => simp only [toggle_bluetooth, hf]; rfl
    | some id => simp only [toggle_bluetooth, hf]; rfl

/-- C6 witness: with output rows `0 acer-wireless` and `1 hci0`, adapter
name `hci0` and observed powered flag true, the id `1` is matched and the
trace carries `rfkill block 1`; with a failed rfkill list the trace is just
power-set and settle sleep. -/
theorem C6_power_toggle_rfkill_and_settle_witness :
    find_device_id (str "hci0") ⟨some (str "0 acer-wireless\n1 hci0")⟩ =
      some (str "1") ∧
    Effect.rfkill_toggle "block" (str "1") ∈
      toggle_bluetooth (str "hci0") ⟨some (str "0 acer-wireless\n1 hci0")⟩ true ∧
    toggle_bluetooth (str "hci0") ⟨none⟩ false =
      [Effect.set_powered true, Effect.sleep_ms 100] := by
  refine ⟨by decide, ?_, ?_⟩
  · exact (C6_power_toggle_rfkill_and_settle true (str "hci0")
      ⟨some (str "0 acer-wireless\n1 hci0")⟩).2.1 (str "1") (by decide)
  · exact (C6_power_toggle_rfkill_and_settle false (str "hci0") ⟨none⟩).2.2.2.1
      (by decide)

/-- C7: a device toggle resolves the handle by the carried record's
address; when resolution succeeds it issues disconnect exactly when the
record's `is_on` predicate (status Connected) holds and connect otherwise,
and when resolution fails it issues neither verb — in every case the
handler continues to the synchronous rebuild, propagating no error. -/
theorem C7_device_toggle_verb_by_is_on {ε : Type} (name : List Char)
    (env : RfkillEnv) (resolve : List Char → Except ε Unit) (d : BTDevice)
    (state : BTState) :
    (d.is_on = true ↔ d.status = BTDeviceStatus.Connected) ∧
    (∀ u : Unit, resolve d.address = .ok u → d.is_on = true →
      handle_request name env resolve (Action.ToggleDevice d) state =
        [Effect.disconnect_device, Effect.rebuild_publish]) ∧
    (∀ u : Unit, resolve d.address = .ok u → d.is_on = false →
      handle_request name env resolve (Action.ToggleDevice d) state =
        [Effect.connect_device, Effect.rebuild_publish]) ∧
    (∀ e : ε, resolve d.address = .error e →
      handle_request name env resolve (Action.ToggleDevice d) state =
        [Effect.rebuild_publish]) := by
  refine ⟨?_, ?_, ?_, ?_⟩
  · simp [BTDevice.is_on]
  · intro u hr hon
    simp [handle_request, toggle_device, hr, hon]
  · intro u hr hon
    simp [handle_request, toggle_device, hr, hon]
  · intro e hr
    simp [handle_request, toggle_device, hr]

/-- C7 witness: a connected device with a resolvable address gets a
disconnect, a disconnected one a connect, and a device whose resolution
fails produces only the rebuild. -/
theorem C7_device_toggle_verb_by_is_on_witness :
    handle_request (ε := Unit) (str "hci0") ⟨none⟩ (fun _ => .ok ())
        (Action.ToggleDevice
          ⟨str "Buds", str "AA", BTDeviceStatus.Connected, true, true, none⟩)
        ⟨true, []⟩ =
      [Effect.disconnect_device, Effect.rebuild_publish] ∧
    handle_request (ε := Unit) (str "hci0") ⟨none⟩ (fun _ => .ok ())
        (Action.ToggleDevice
          ⟨str "Buds", str "AA", BTDeviceStatus.Paired, true, true, none⟩)
        ⟨true, []⟩ =
      [Effect.connect_device, Effect.rebuild_publish] ∧
    handle_request (ε := Unit) (str "hci0") ⟨none⟩ (fun _ => .error ())
        (Action.ToggleDevice
          ⟨str "Buds", str "AA", BTDeviceStatus.Connected, true, true, none⟩)
        ⟨true, []⟩ =
      [Effect.rebuild_publish] := by
  refine ⟨?_, ?_, ?_⟩
  · exact (C7_device_toggle_verb_by_is_on (str "hci0") ⟨none⟩ (fun _ => .ok ())
      ⟨str "Buds", str "AA", BTDeviceStatus.Connected, true, true, none⟩
      ⟨true, []⟩).2.1 () rfl (by decide)
  · exact (C7_device_toggle_verb_by_is_on (str "hci0") ⟨none⟩ (fun _ => .ok ())
      ⟨str "Buds", str "AA", BTDeviceStatus.Paired, true, true, none⟩
      ⟨true, []⟩).2.2.1 () rfl (by decide)
  · exact (C7_device_toggle_verb_by_is_on (str "hci0") ⟨none⟩ (fun _ => .error ())
      ⟨str "Buds", str "AA", BTDeviceStatus.Connected, true, true, none⟩
      ⟨true, []⟩).2.2.2 () rfl

/-- C8: a processed power toggle schedules, besides the single immediate
synchronous rebuild, exactly one detached spawned task, and that task is
the delayed rebuild sleeping `STATE_CHANGED_FAILED_RETRY_MS` = 5000 ms
before re-querying and re-publishing. -/
theorem C8_exactly_one_delayed_rebuild {ε : Type} (name : List Char)
    (env : RfkillEnv) (resolve : List Char → Except ε Unit) (state : BTState) :
    STATE_CHANGED_FAILED_RETRY_MS = 5000 ∧
    (handle_request name env resolve Action.ToggleBluetooth state).countP
        Effect.is_spawn = 1 ∧
    Effect.spawn_task [Effect.sleep_ms 5000, Effect.rebuild_publish] ∈
      handle_request name env resolve Action.ToggleBluetooth state ∧
    (handle_request name env resolve Action.ToggleBluetooth state).countP
        Effect.is_rebuild = 1 := by
  refine ⟨rfl, ?_, ?_, ?_⟩ <;>
    cases hf : find_device_id name env <;>
      simp [handle_request, toggle_bluetooth, hf, STATE_CHANGED_FAILED_RETRY_MS,
        Effect.is_spawn, Effect.is_rebuild, List.countP_cons]

end Bluetooth
